import Mathlib

/-!
Verification of the eMedosmotr three-stage validation pipeline.

The Python services under `backend/app/services` are shallowly embedded:
free text is `String` (character lists, as Python indexes by characters),
real numbers are `ℚ`, database rows are Lean structures, SQL queries are
list operations, and the external embedding capability is a function
returning `Except Unit (List ℚ)` so that its failure modes can be studied.
The keyword vocabularies live in the `ai_analyzer` module, which is not part
of the sources; all definitions are therefore parameterised by the
vocabulary lists.
-/

namespace EMed

/-- Python `str.lower` restricted to the alphabets the system manipulates:
ASCII letters and the Cyrillic block (А-Я, Ё). -/
def pyLowerChar (c : Char) : Char :=
  let n := c.toNat
  if 65 ≤ n ∧ n ≤ 90 then Char.ofNat (n + 32)
  else if 0x410 ≤ n ∧ n ≤ 0x42F then Char.ofNat (n + 0x20)
  else if n = 0x401 then Char.ofNat 0x451
  else c

/-- Python `str.upper` restricted to ASCII letters and the Cyrillic block. -/
def pyUpperChar (c : Char) : Char :=
  let n := c.toNat
  if 97 ≤ n ∧ n ≤ 122 then Char.ofNat (n - 32)
  else if 0x430 ≤ n ∧ n ≤ 0x44F then Char.ofNat (n - 0x20)
  else if n = 0x451 then Char.ofNat 0x401
  else c

def pyLower (s : String) : String := String.mk (s.data.map pyLowerChar)

def pyUpper (s : String) : String := String.mk (s.data.map pyUpperChar)

/-- Whitespace characters removed by Python `str.strip`. -/
def isWs (c : Char) : Bool :=
  c = ' ' || c = '\t' || c = '\n' || c = '\r' || c = Char.ofNat 11 || c = Char.ofNat 12

def stripList (l : List Char) : List Char :=
  ((l.dropWhile isWs).reverse.dropWhile isWs).reverse

/-- Python `str.strip()`. -/
def pyStrip (s : String) : String := String.mk (stripList s.data)

/-- Index of the first occurrence of `need` in `hay`
(Python `str.find`, restricted to found/not-found). -/
def subFind (need : List Char) : List Char → Option Nat
  | [] => if need.isPrefixOf ([] : List Char) then some 0 else none
  | h :: t =>
    if need.isPrefixOf (h :: t) then some 0
    else (subFind need t).map (· + 1)

/-- Python `needle in hay` (substring test). -/
def strIn (need : String) (hay : String) : Bool := (subFind need.data hay.data).isSome

/-- Python slice `l[a:b]` for `a ≤ b` (indices clamped to the ends). -/
def pySlice (l : List Char) (a b : Nat) : List Char := (l.take b).drop a

/-- Python `s[:n]`. -/
def strTake (s : String) (n : Nat) : String := String.mk (s.data.take n)

/-- Python `f"{o}"` on an optional string: `None` prints as `"None"`. -/
def pyStr (o : Option String) : String :=
  match o with
  | some s => s
  | none => "None"

/-- Round half to even at integer precision (Python `round`). -/
def rhe (y : ℚ) : ℤ :=
  if y - ⌊y⌋ < 1/2 then ⌊y⌋
  else if 1/2 < y - ⌊y⌋ then ⌊y⌋ + 1
  else if Even ⌊y⌋ then ⌊y⌋ else ⌊y⌋ + 1

/-- Python `round(x, 4)`. -/
def round4 (x : ℚ) : ℚ := (rhe (x * 10000) : ℚ) / 10000

/-- One row of the `point_criteria` table (Appendix 2): an (article, subpoint)
criterion with its description, optional precomputed embedding and the four
per-graph category columns. -/
structure Criterion where
  article : Int
  subpoint : Option String
  description : String
  criteria_embedding : Option (List ℚ)
  graph_1 : Option String
  graph_2 : Option String
  graph_3 : Option String
  graph_4 : Option String
deriving DecidableEq, Repr

/-- One result entry of `search_diseases_in_text`: the dictionary
with keys article/subpoint/description/similarity/categories. -/
structure Disease where
  article : Int
  subpoint : Option String
  description : String
  similarity : ℚ
  graph_1 : Option String
  graph_2 : Option String
  graph_3 : Option String
  graph_4 : Option String
deriving DecidableEq, Repr

/-- Python `categories.get(graph)` on the dictionary built by
`search_diseases_in_text` (keys 1-4 only). -/
def Disease.catOf (d : Disease) (g : Nat) : Option String :=
  match g with
  | 1 => d.graph_1
  | 2 => d.graph_2
  | 3 => d.graph_3
  | 4 => d.graph_4
  | _ => none

/-- The external embedding capability `openai_service.create_embedding`:
it may fail with an exception. -/
abbrev Embed := String → Except Unit (List ℚ)

/-- The pgvector `cosine_distance` operator (computed by the database,
outside this repository). -/
abbrev Dist := List ℚ → List ℚ → ℚ

/-- An embedding capability that always raises. -/
def embedFail : Embed := fun _ => Except.error ()

/-- Stable insertion into a list sorted ascending by the distance component
(models the SQL `ORDER BY distance`). -/
def insertRow (x : Criterion × ℚ) : List (Criterion × ℚ) → List (Criterion × ℚ)
  | [] => [x]
  | h :: t => if h.2 ≤ x.2 then h :: insertRow x t else x :: h :: t

/-- Stable sort ascending by distance (the SQL `ORDER BY distance`). -/
def sortByDist : List (Criterion × ℚ) → List (Criterion × ℚ)
  | [] => []
  | h :: t => insertRow h (sortByDist t)

/-- Format one retrieved row of `search_diseases_in_text`:
similarity is `round(1 - distance, 4)` and the categories dictionary
carries the four graph columns. -/
def mkDisease (c : Criterion) (d : ℚ) : Disease :=
  { article := c.article
    subpoint := c.subpoint
    description := c.description
    similarity := round4 (1 - d)
    graph_1 := c.graph_1
    graph_2 := c.graph_2
    graph_3 := c.graph_3
    graph_4 := c.graph_4 }

/-- `RAGService.search_diseases_in_text`: returns `[]` for text whose trimmed
length is below 10, embeds the text (returning `[]` if the capability or the
query raises), ranks the criteria rows that carry an embedding by cosine
distance ascending, takes `top_k`, skips rows whose unrounded similarity
`1 - distance` is below the threshold, and reports the kept rows with the
similarity rounded to 4 decimals. -/
def search_diseases_in_text (dist : Dist) (embed : Embed) (store : List Criterion)
    (text : String) (top_k : Nat) (similarity_threshold : ℚ) : List Disease :=
  if (pyStrip text).length < 10 then []
  else
    match embed text with
    | Except.error _ => []
    | Except.ok q =>
      ((((sortByDist ((store.filter (fun c => c.criteria_embedding.isSome)).map
          (fun c => (c, dist (c.criteria_embedding.getD []) q)))).take top_k).filter
        (fun cd => decide (similarity_threshold ≤ 1 - cd.2))).map
        (fun cd => mkDisease cd.1 cd.2))

/-- The three keyword vocabularies held by `ContradictionChecker`.
Their contents are provided by `AIAnalyzer` (a module outside these sources),
so every statement below is parameterised over them. -/
structure Vocab where
  healthy_keywords : List String
  pathology_keywords : List String
  severe_keywords : List String

/-- Negation markers used by `_is_healthy_text`. -/
def healthyNegations : List String := ["не ", "нет ", "без ", "отсутств"]

/-- Negation markers inspected before a severe keyword. -/
def severeNegationsBefore : List String := ["не ", "нет ", "без ", "отсутств", "исключ"]

/-- Negation markers inspected after a severe keyword. -/
def severeNegationsAfter : List String :=
  [" не ", " нет", " отсутств", " исключ", " не обнаруж", " не выявл"]

/-- `ContradictionChecker._is_healthy_text`: the lower-cased text must contain
a healthy keyword, and every pathology keyword present must carry a negation
marker in the 20 characters before its first occurrence. -/
def is_healthy_text (V : Vocab) (text : String) : Bool :=
  if text.isEmpty then false
  else
    if V.healthy_keywords.any (fun k => strIn k (pyLower text)) then
      V.pathology_keywords.all (fun k =>
        match subFind k.data (pyLower text).data with
        | none => true
        | some pos =>
          healthyNegations.any
            (fun n => (subFind n.data (pySlice (pyLower text).data (pos - 20) pos)).isSome))
    else false

/-- The keyword loop of `_contains_severe_condition`: the first keyword whose
first occurrence carries no negation marker in the 25 characters before it nor
in the 30 characters after it wins. -/
def severeScan (lower : List Char) : List String → Option String
  | [] => none
  | k :: rest =>
    match subFind k.data lower with
    | none => severeScan lower rest
    | some pos =>
      if severeNegationsBefore.any
          (fun n => (subFind n.data (pySlice lower (pos - 25) pos)).isSome)
        || severeNegationsAfter.any
          (fun n => (subFind n.data
            (pySlice lower (pos + k.data.length) (pos + k.data.length + 30))).isSome)
      then severeScan lower rest
      else some k

/-- `ContradictionChecker._contains_severe_condition` (the boolean is the
`isSome` of the returned keyword). -/
def contains_severe_condition (V : Vocab) (text : String) : Option String :=
  if text.isEmpty then none else severeScan (pyLower text).data V.severe_keywords

inductive ContradictionType where
  | TYPE_A | TYPE_B | TYPE_C | TYPE_D | TYPE_E | TYPE_F
deriving DecidableEq, Repr

inductive Severity where
  | LOW | MEDIUM | HIGH | CRITICAL
deriving DecidableEq, Repr

/-- A `ContradictionResult` with `has_contradiction = True`; the checkers
return `none` for the no-contradiction sentinel. -/
structure Contradiction where
  contradiction_type : ContradictionType
  severity : Severity
  description : String
  source_field : Option String
  target_field : Option String
  source_value : Option String
  target_value : Option String
  rag_matches : List Disease
  recommendation : Option String
deriving DecidableEq, Repr

/-- The `category_severity` ordinal table shared by the Type C and Type D
checks (unknown codes map to 0). -/
def category_severity (s : String) : Nat :=
  if s = "А" then 1
  else if s = "Б" then 2
  else if s = "В" then 3
  else if s = "В-ИНД" then 3
  else if s = "Г" then 4
  else if s = "Д" then 5
  else if s = "Е" then 6
  else if s = "НГ" then 7
  else 0

/-- `category_severity.get(value, 0)` applied to a categories-dictionary value,
which may be `None`. -/
def sevOfOpt (o : Option String) : Nat :=
  match o with
  | none => 0
  | some s => category_severity s

/-- `ContradictionChecker._check_type_e`: healthy diagnosis text with a
category other than А. -/
def check_type_e (V : Vocab) (diagnosis_text doctor_category : String) :
    Option Contradiction :=
  if is_healthy_text V diagnosis_text
      && !(pyStrip (pyUpper doctor_category) == "А"
        || pyStrip (pyUpper doctor_category) == "A") then
    some
      { contradiction_type := ContradictionType.TYPE_E
        severity := Severity.HIGH
        description :=
          "ЛОГИЧЕСКАЯ ОШИБКА: Диагноз указывает ’Здоров’, но категория годности ’"
            ++ doctor_category
            ++ "’ вместо ’А’. Если призывник здоров, категория должна быть только ’А’."
        source_field := some ("diagnosis_text")
        target_field := some ("doctor_category")
        source_value := some (strTake diagnosis_text 200)
        target_value := some doctor_category
        rag_matches := []
        recommendation := some ("Уточнить диагноз или исправить категорию годности") }
  else none

/-- `ContradictionChecker._check_type_f`: severe un-negated condition in the
diagnosis while the category is А. -/
def check_type_f (V : Vocab) (diagnosis_text doctor_category : String) :
    Option Contradiction :=
  if !(pyStrip (pyUpper doctor_category) == "А"
      || pyStrip (pyUpper doctor_category) == "A") then none
  else
    match contains_severe_condition V diagnosis_text with
    | none => none
    | some kw =>
      some
        { contradiction_type := ContradictionType.TYPE_F
          severity := Severity.CRITICAL
          description :=
            "КРИТИЧЕСКАЯ ОШИБКА: Диагноз содержит признаки тяжелого заболевания (’"
              ++ kw
              ++ "’), но категория годности ’А’ (полностью годен). Тяжелые заболевания несовместимы с категорией ’А’."
          source_field := some ("diagnosis_text")
          target_field := some ("doctor_category")
          source_value := some (strTake diagnosis_text 300)
          target_value := some doctor_category
          rag_matches := []
          recommendation :=
            some ("СРОЧНО: Пересмотреть категорию годности. Вероятна механическая ошибка при заполнении.") }

/-- The finding built by `_check_type_a` once a field yields retrieval hits. -/
def mkTypeA (diagnosis_text field_name field_value : String)
    (diseases : List Disease) : Contradiction :=
  { contradiction_type := ContradictionType.TYPE_A
    severity :=
      if diseases.any (fun d =>
          d.graph_1 == some "Д" || d.graph_1 == some "Е" || d.graph_1 == some "НГ")
      then Severity.CRITICAL else Severity.HIGH
    description :=
      "ПРОТИВОРЕЧИЕ: Диагноз указывает ’Здоров’, но в поле ’" ++ field_name
        ++ "’ обнаружены признаки заболеваний. Найдено " ++ toString diseases.length
        ++ " совпадений с критериями Приказа 722."
    source_field := some ("diagnosis_text")
    target_field := some field_name
    source_value := some (strTake diagnosis_text 200)
    target_value := some (strTake field_value 200)
    rag_matches := diseases
    recommendation :=
      some ("Требуется уточнение: актуально ли заболевание или это история болезни (вылечен).") }

/-- The field loop of `_check_type_a`. -/
def typeALoop (dist : Dist) (embed : Embed) (store : List Criterion) (V : Vocab)
    (diagnosis_text : String) : List (String × String) → Option Contradiction
  | [] => none
  | (fn, fv) :: rest =>
    if is_healthy_text V fv then typeALoop dist embed store V diagnosis_text rest
    else
      if (search_diseases_in_text dist embed store fv 3 (70/100)).isEmpty then
        typeALoop dist embed store V diagnosis_text rest
      else
        some (mkTypeA diagnosis_text fn fv
          (search_diseases_in_text dist embed store fv 3 (70/100)))

/-- `ContradictionChecker._check_type_a`. -/
def check_type_a (dist : Dist) (embed : Embed) (store : List Criterion) (V : Vocab)
    (diagnosis_text : String) (fields : List (String × String)) :
    Option Contradiction :=
  if !(is_healthy_text V diagnosis_text) then none
  else typeALoop dist embed store V diagnosis_text fields

/-- The field loop of `_check_type_b`. -/
def typeBLoop (V : Vocab) (diagnosis_text : String) :
    List (String × String) → Option Contradiction
  | [] => none
  | (fn, fv) :: rest =>
    if is_healthy_text V fv then
      some
        { contradiction_type := ContradictionType.TYPE_B
          severity := Severity.MEDIUM
          description :=
            "ПРОТИВОРЕЧИЕ: В диагнозе указано заболевание, но в поле ’" ++ fn
              ++ "’ указано, что призывник здоров. Возможно, это контекст ’общее состояние удовлетворительное’ или ошибка в диагнозе."
          source_field := some ("diagnosis_text")
          target_field := some fn
          source_value := some (strTake diagnosis_text 200)
          target_value := some (strTake fv 200)
          rag_matches := []
          recommendation :=
            some ("Уточнить: относится ли ’здоров’ к общему состоянию или врач ошибся в диагнозе.") }
    else typeBLoop V diagnosis_text rest

/-- `ContradictionChecker._check_type_b`. -/
def check_type_b (V : Vocab) (diagnosis_text : String)
    (fields : List (String × String)) : Option Contradiction :=
  if is_healthy_text V diagnosis_text then none
  else typeBLoop V diagnosis_text fields

/-- The finding built by `_check_type_c` for a more severe other-article hit. -/
def mkTypeC (diagnosis_text field_name field_value : String) (d0 d : Disease) :
    Contradiction :=
  { contradiction_type := ContradictionType.TYPE_C
    severity := if 5 ≤ sevOfOpt d.graph_1 then Severity.CRITICAL else Severity.HIGH
    description :=
      "ПРОТИВОРЕЧИЕ: В диагнозе указана статья " ++ toString d0.article
        ++ " (категория " ++ pyStr d0.graph_1 ++ "), но в поле ’" ++ field_name
        ++ "’ обнаружены признаки статьи " ++ toString d.article
        ++ " (категория " ++ pyStr d.graph_1 ++ "), которая серьезнее."
    source_field := some ("diagnosis_text")
    target_field := some field_name
    source_value := some (strTake diagnosis_text 200)
    target_value := some (strTake field_value 200)
    rag_matches := [d0, d]
    recommendation :=
      some ("Необходимо определить основной диагноз. Возможно, статья "
        ++ toString d.article ++ " должна быть приоритетной.") }

/-- The inner disease loop of `_check_type_c`; `d0` is the top diagnosis hit.
The graph-1 categories alone feed the severity comparison. -/
def typeCDiseaseLoop (diagnosis_text field_name field_value : String)
    (d0 : Disease) : List Disease → Option Contradiction
  | [] => none
  | d :: rest =>
    if d.article ≠ 0 ∧ d.article ≠ d0.article then
      if sevOfOpt d0.graph_1 < sevOfOpt d.graph_1 then
        some (mkTypeC diagnosis_text field_name field_value d0 d)
      else typeCDiseaseLoop diagnosis_text field_name field_value d0 rest
    else typeCDiseaseLoop diagnosis_text field_name field_value d0 rest

/-- The field loop of `_check_type_c`. -/
def typeCFieldLoop (dist : Dist) (embed : Embed) (store : List Criterion)
    (V : Vocab) (diagnosis_text : String) (d0 : Disease) :
    List (String × String) → Option Contradiction
  | [] => none
  | (fn, fv) :: rest =>
    if is_healthy_text V fv then
      typeCFieldLoop dist embed store V diagnosis_text d0 rest
    else
      match typeCDiseaseLoop diagnosis_text fn fv d0
        (search_diseases_in_text dist embed store fv 3 (70/100)) with
      | some c => some c
      | none => typeCFieldLoop dist embed store V diagnosis_text d0 rest

/-- `ContradictionChecker._check_type_c`. -/
def check_type_c (dist : Dist) (embed : Embed) (store : List Criterion) (V : Vocab)
    (diagnosis_text : String) (fields : List (String × String)) :
    Option Contradiction :=
  if is_healthy_text V diagnosis_text then none
  else
    match search_diseases_in_text dist embed store diagnosis_text 2 (65/100) with
    | [] => none
    | d0 :: _ => typeCFieldLoop dist embed store V diagnosis_text d0 fields

/-- `ContradictionChecker._check_type_d`. -/
def check_type_d (dist : Dist) (embed : Embed) (store : List Criterion) (V : Vocab)
    (diagnosis_text doctor_category : String) (graph : Nat) :
    Option Contradiction :=
  if is_healthy_text V diagnosis_text then none
  else
    match search_diseases_in_text dist embed store diagnosis_text 1 (70/100) with
    | [] => none
    | best :: _ =>
      match best.catOf graph with
      | none => none
      | some expected_category =>
        if expected_category.isEmpty then none
        else
          if pyStrip (pyUpper doctor_category) == pyStrip (pyUpper expected_category)
          then none
          else
            some
              { contradiction_type := ContradictionType.TYPE_D
                severity :=
                  if 2 ≤ ((category_severity (pyStrip (pyUpper doctor_category)) : ℤ)
                      - category_severity (pyStrip (pyUpper expected_category))).natAbs
                  then Severity.CRITICAL else Severity.HIGH
                description :=
                  "НЕСООТВЕТСТВИЕ КАТЕГОРИИ: Врач поставил категорию ’" ++ doctor_category
                    ++ "’, но по статье " ++ toString best.article ++ ", подпункт "
                    ++ pyStr best.subpoint ++ " для графа " ++ toString graph
                    ++ " ожидается категория ’" ++ expected_category ++ "’."
                source_field := some ("doctor_category")
                target_field := some ("handbook_category")
                source_value := some doctor_category
                target_value := some expected_category
                rag_matches := [best]
                recommendation :=
                  some ("Проверить соответствие категории Приказу 722, статья "
                    ++ toString best.article ++ ", подпункт " ++ pyStr best.subpoint ++ ".") }

def optList : Option Contradiction → List Contradiction
  | none => []
  | some c => [c]

/-- The filter building `non_empty_fields`: a supplementary field survives iff
present and at least 10 characters after trimming. -/
def fieldFilter (nv : String × Option String) : Option (String × String) :=
  match nv.2 with
  | some v => if 10 ≤ (pyStrip v).length then some (nv.1, v) else none
  | none => none

def nonEmptyFields (anamnesis complaints objective_data special_research_results
    doctor_notes : Option String) : List (String × String) :=
  ([("anamnesis", anamnesis), ("complaints", complaints),
    ("objective_data", objective_data),
    ("special_research_results", special_research_results),
    ("doctor_notes", doctor_notes)]).filterMap fieldFilter

/-- `ContradictionChecker.check_for_contradictions`: the six checks run in the
fixed order E, F, A, B, C, D and the findings are collected in that order. -/
def check_for_contradictions (dist : Dist) (embed : Embed) (store : List Criterion)
    (V : Vocab) (diagnosis_text doctor_category : String)
    (anamnesis complaints objective_data special_research_results
      doctor_notes : Option String) (graph : Nat) : List Contradiction :=
  optList (check_type_e V diagnosis_text doctor_category)
    ++ optList (check_type_f V diagnosis_text doctor_category)
    ++ optList (check_type_a dist embed store V diagnosis_text
        (nonEmptyFields anamnesis complaints objective_data
          special_research_results doctor_notes))
    ++ optList (check_type_b V diagnosis_text
        (nonEmptyFields anamnesis complaints objective_data
          special_research_results doctor_notes))
    ++ optList (check_type_c dist embed store V diagnosis_text
        (nonEmptyFields anamnesis complaints objective_data
          special_research_results doctor_notes))
    ++ optList (check_type_d dist embed store V diagnosis_text doctor_category graph)

/-- One row of the `points_diagnoses` table (Appendix 1): the per-graph
category columns for an (article, subpoint). -/
structure PointDiagnosis where
  article : Int
  subpoint : Option String
  graph_1 : Option String
  graph_2 : Option String
  graph_3 : Option String
  graph_4 : Option String
deriving DecidableEq, Repr

/-- The `{1: graph_1, ...}.get(graph)` dictionary of a diagnosis row. -/
def PointDiagnosis.catOf (r : PointDiagnosis) (g : Nat) : Option String :=
  match g with
  | 1 => r.graph_1
  | 2 => r.graph_2
  | 3 => r.graph_3
  | 4 => r.graph_4
  | _ => none

/-- The requested subpoint counts as absent
(`subpoint is None or subpoint == "" or subpoint == "null" or subpoint == "None"`). -/
def spNullish (sp : Option String) : Bool :=
  sp == none || sp == some "" || sp == some "null" || sp == some "None"

/-- A stored subpoint matched by the tolerant branch
(`subpoint IS NULL OR subpoint = '' OR subpoint = 'null'`). -/
def rowNullish (sp : Option String) : Bool :=
  sp == none || sp == some "" || sp == some "null"

/-- The `points_diagnoses` lookup of
`CriteriaValidator.validate_article_subpoint`: a null/empty requested
subpoint matches rows whose stored subpoint is null or empty, any other
subpoint is matched exactly. -/
def lookupDiagnosisRow (drows : List PointDiagnosis) (article : Int)
    (subpoint : Option String) : Option PointDiagnosis :=
  if spNullish subpoint then
    drows.find? (fun r => r.article == article && rowNullish r.subpoint)
  else
    drows.find? (fun r => r.article == article && r.subpoint == subpoint)

/-- The `point_criteria` lookup of
`CriteriaValidator.validate_article_subpoint` (same tolerance). -/
def lookupCriterionRow (crows : List Criterion) (article : Int)
    (subpoint : Option String) : Option Criterion :=
  if spNullish subpoint then
    crows.find? (fun r => r.article == article && rowNullish r.subpoint)
  else
    crows.find? (fun r => r.article == article && r.subpoint == subpoint)

/-- The part of `CriteriaValidationResult` the pipeline consumes. -/
structure CriteriaValidationResult where
  is_valid : Bool
  article : Int
  subpoint : Option String
  point_diagnosis : Option PointDiagnosis
deriving DecidableEq, Repr

/-- `CriteriaValidator.validate_article_subpoint`: valid iff either reference
table holds a row for (article, subpoint); the categories come from the
`points_diagnoses` row alone. -/
def validate_article_subpoint (crows : List Criterion) (drows : List PointDiagnosis)
    (article : Int) (subpoint : Option String) : CriteriaValidationResult :=
  let pc := lookupCriterionRow crows article subpoint
  let pd := lookupDiagnosisRow drows article subpoint
  { is_valid := pc.isSome || pd.isSome
    article := article
    subpoint := subpoint
    point_diagnosis := pd }

/-- Modelled from the spec: `ai_analyzer.determine_category` (the
`ai_analyzer` module is not among the sources). Per §4.5 it looks up the
reference row for (article, subpoint) — tolerating a null/empty subpoint, as
`CriteriaValidator.validate_article_subpoint` embedded above does — and reads
the category for the record's graph from that row. -/
def determine_category (drows : List PointDiagnosis) (article : Int)
    (subpoint : Option String) (graph : Nat) : Option String :=
  match lookupDiagnosisRow drows article subpoint with
  | none => none
  | some row => row.catOf graph

/-- Stage-1 output dictionary of `ai_analyzer.determine_subpoint` (external
completion capability; the module is not among the sources, so the pipeline
is parameterised over this value). -/
structure ClinicalResult where
  is_healthy : Bool
  article : Option Int
  subpoint : Option String
  confidence : ℚ
  reasoning : String
  model : String
  tokens : Nat
  matched_criteria : List Disease
  validation_performed : Bool
deriving DecidableEq, Repr

structure Stage1Result where
  stage_name : String
  stage_number : Nat
  passed : Bool
  status : String
  article : Option Int
  subpoint : Option String
  confidence : ℚ
  is_healthy : Bool
  reasoning : Option String
  matched_criteria : List Disease
  validation_performed : Bool
  duration_seconds : ℚ
deriving DecidableEq, Repr

structure Stage2Result where
  stage_name : String
  stage_number : Nat
  passed : Bool
  status : String
  expected_category : Option String
  doctor_category : String
  graph : Nat
  duration_seconds : ℚ
deriving DecidableEq, Repr

inductive MatchStatus where
  | MATCH | MISMATCH | PARTIAL_MISMATCH | REVIEW_REQUIRED
deriving DecidableEq, Repr

inductive OverallStatus where
  | VALID | WARNING | INVALID
deriving DecidableEq, Repr

/-- `FullValidationService._is_borderline_case`: the hard-coded borderline
(article, subpoint, keyword) table. -/
def is_borderline_case (article : Option Int) (subpoint : Option String)
    (diagnosis_text : String) : Bool :=
  let dl := pyLower diagnosis_text
  (article == some 2 && subpoint == some "3"
    && (["туберкулез", "туберкулёз", "остаточн", "посттуберкулезн",
         "излечен", "вылечен", "после лечения"].any (fun kw => strIn kw dl)))
  || (article == some 2 && subpoint == some "4"
    && (["мал", "остаточн", "единичн", "очаг", "петрификат"].any
         (fun kw => strIn kw dl)))
  || (article == some 1 && subpoint == some "2"
    && (["после", "перенес", "гепатит", "тиф"].any (fun kw => strIn kw dl)))

/-- `FullValidationService._determine_category_match_status`. -/
def determine_category_match_status (doctor_category : String)
    (ai_category : Option String) (is_healthy : Bool) (ai_article : Option Int)
    (ai_subpoint : Option String) (diagnosis_text : String) : MatchStatus :=
  let docN := pyStrip (pyUpper doctor_category)
  match ai_category with
  | none =>
    if (docN == "А" || docN == "A") && ai_article == none && ai_subpoint == none
    then MatchStatus.MATCH
    else MatchStatus.REVIEW_REQUIRED
  | some ac =>
    let aiN := pyStrip (pyUpper ac)
    if is_healthy then
      if docN == "А" || docN == "A" then MatchStatus.MATCH else MatchStatus.MISMATCH
    else if docN == aiN then MatchStatus.MATCH
    else if is_borderline_case ai_article ai_subpoint diagnosis_text then
      MatchStatus.PARTIAL_MISMATCH
    else MatchStatus.MISMATCH

/-- `FullValidationService._calculate_overall_status`. -/
def calculate_overall_status (contradictions : List Contradiction)
    (cms : MatchStatus) (ai_confidence : ℚ) (is_healthy : Bool) :
    OverallStatus × Severity :=
  let has_any := !contradictions.isEmpty
  if cms == MatchStatus.MATCH && !has_any then (OverallStatus.VALID, Severity.LOW)
  else
    let has_critical := contradictions.any (fun c => c.severity == Severity.CRITICAL)
    let has_high := contradictions.any (fun c => c.severity == Severity.HIGH)
    if has_critical then (OverallStatus.INVALID, Severity.CRITICAL)
    else if cms == MatchStatus.MISMATCH then
      if has_high then (OverallStatus.INVALID, Severity.HIGH)
      else (OverallStatus.WARNING, Severity.HIGH)
    else if cms == MatchStatus.PARTIAL_MISMATCH then
      (OverallStatus.WARNING, Severity.MEDIUM)
    else if has_any then
      if has_high then (OverallStatus.WARNING, Severity.HIGH)
      else (OverallStatus.WARNING, Severity.MEDIUM)
    else if ai_confidence < 1/2 && !is_healthy then
      (OverallStatus.WARNING, Severity.MEDIUM)
    else if cms == MatchStatus.REVIEW_REQUIRED then
      (OverallStatus.WARNING, Severity.MEDIUM)
    else if 7/10 ≤ ai_confidence || is_healthy then
      (OverallStatus.VALID, Severity.LOW)
    else (OverallStatus.VALID, Severity.MEDIUM)

/-- Python `f"{q:.0%}"`. -/
def pctStr (q : ℚ) : String := toString (rhe (q * 100)) ++ "%"

/-- Python `f"{o}"` on an optional integer. -/
def pyStrInt (o : Option Int) : String :=
  match o with
  | some x => toString x
  | none => "None"

def lowConfidenceReason (q : ℚ) : String :=
  "Низкая уверенность AI в определении подпункта (" ++ pctStr q ++ ")"

def missingCategoryReason (a : Int) (sp : Option String) : String :=
  "Не удалось определить категорию для статьи " ++ toString a
    ++ ", подпункт " ++ pyStr sp

def mismatchReason (doc : String) (aiC : Option String) : String :=
  "Категория врача (" ++ doc ++ ") не совпадает с рекомендованной ("
    ++ pyStr aiC ++ ")"

def mismatchRecommendation (a : Option Int) : String :=
  "Проверить соответствие категории Приказу 722"
    ++ (match a with
        | some x => ", статья " ++ toString x
        | none => "")

def partialMismatchReason (doc : String) (aiC : Option String) : String :=
  "Возможное несоответствие категории: врач указал (" ++ doc
    ++ "), система рекомендует (" ++ pyStr aiC
    ++ "). Это пограничный случай, требующий дополнительного анализа"

def partialMismatchRecommendation (a : Option Int) (sp : Option String) : String :=
  "Проверить дополнительные условия для статьи " ++ pyStrInt a ++ ", подпункт "
    ++ pyStr sp ++ ". Данный подпункт имеет несколько сценариев с разными категориями"

/-- The `should_review` flag of the aggregator. -/
def shouldReviewFlag (os : OverallStatus) (rl : Severity) (rr : List String) : Bool :=
  os != OverallStatus.VALID || decide (0 < rr.length)
    || (rl == Severity.HIGH || rl == Severity.CRITICAL)

structure Metadata where
  model : String
  total_duration_seconds : ℚ
  stage_0_duration_seconds : ℚ
  stage_1_duration_seconds : ℚ
  stage_2_duration_seconds : ℚ
  tokens_used : Nat
  graph : Nat
  specialty : String
deriving DecidableEq, Repr

structure CheckDoctorConclusionResponse where
  overall_status : OverallStatus
  risk_level : Severity
  stage_0_contradictions : List Contradiction
  stage_1_clinical : Stage1Result
  stage_2_administrative : Stage2Result
  ai_recommended_article : Option Int
  ai_recommended_subpoint : Option String
  ai_recommended_category : Option String
  ai_confidence : ℚ
  ai_reasoning : String
  doctor_article : Option Int
  doctor_subpoint : Option String
  doctor_category : String
  category_match_status : MatchStatus
  should_review : Bool
  review_reasons : List String
  recommendations : List String
  is_healthy : Bool
  metadata : Metadata
deriving DecidableEq, Repr

/-- The caller-supplied examination record (the keyword arguments of
`full_validation_with_contradiction_check`). -/
structure ExaminationRecord where
  diagnosis_text : String
  doctor_category : String
  specialty : String
  anamnesis : Option String
  complaints : Option String
  objective_data : Option String
  special_research_results : Option String
  conclusion_text : Option String
  doctor_notes : Option String
  article_hint : Option Int
  subpoint_hint : Option String
  graph : Nat
deriving DecidableEq, Repr

/-- Stages 1-3 of `full_validation_with_contradiction_check`, given the
Stage-0 findings: stage-1 shaping, the Stage-2 reference lookup, the
category-match classification and the verdict assembly. -/
def aggregate_validation (contradictions : List Contradiction)
    (drows : List PointDiagnosis) (r : ExaminationRecord)
    (clinical : ClinicalResult) (d0 d1 d2 dt : ℚ) :
    CheckDoctorConclusionResponse :=
  let reasons0 := contradictions.map (fun c => c.description)
  let recs0 := contradictions.filterMap (fun c => c.recommendation)
  let is_healthy := clinical.is_healthy
  let ai_article := clinical.article
  let ai_subpoint := clinical.subpoint
  let ai_confidence := clinical.confidence
  let ai_reasoning := clinical.reasoning
  let stage_1_passed := (1/2 ≤ ai_confidence : Bool) || is_healthy
  let stage_1_status := if stage_1_passed then "SUCCESS" else "WARNING"
  let reasons1 :=
    if !stage_1_passed && !is_healthy then [lowConfidenceReason ai_confidence] else []
  let stage_1_clinical : Stage1Result :=
    { stage_name := "Клиническая валидация (AI + Приложение 2)"
      stage_number := 1
      passed := stage_1_passed
      status := stage_1_status
      article := ai_article
      subpoint := ai_subpoint
      confidence := ai_confidence
      is_healthy := is_healthy
      reasoning := if ai_reasoning.isEmpty then none else some (strTake ai_reasoning 500)
      matched_criteria := clinical.matched_criteria
      validation_performed := clinical.validation_performed
      duration_seconds := d1 }
  let stage2core : Option String × Bool × String × List String :=
    if is_healthy then (some "А", true, "SUCCESS", [])
    else
      match ai_article with
      | some a =>
        let c := determine_category drows a ai_subpoint r.graph
        (c, c.isSome, if c.isSome then "SUCCESS" else "ERROR",
          if c.isSome then [] else [missingCategoryReason a ai_subpoint])
      | none => (none, false, "SKIPPED", [])
  let ai_category := stage2core.1
  let stage_2_administrative : Stage2Result :=
    { stage_name := "Административная проверка (SQL + Приложение 1)"
      stage_number := 2
      passed := stage2core.2.1
      status := stage2core.2.2.1
      expected_category := ai_category
      doctor_category := r.doctor_category
      graph := r.graph
      duration_seconds := d2 }
  let cms := determine_category_match_status r.doctor_category ai_category
    is_healthy ai_article ai_subpoint r.diagnosis_text
  let reasonsM :=
    if cms == MatchStatus.MISMATCH then [mismatchReason r.doctor_category ai_category]
    else if cms == MatchStatus.PARTIAL_MISMATCH then
      [partialMismatchReason r.doctor_category ai_category]
    else []
  let recsM :=
    if cms == MatchStatus.MISMATCH then [mismatchRecommendation ai_article]
    else if cms == MatchStatus.PARTIAL_MISMATCH then
      [partialMismatchRecommendation ai_article ai_subpoint]
    else []
  let osrl := calculate_overall_status contradictions cms ai_confidence is_healthy
  let review_reasons := reasons0 ++ reasons1 ++ stage2core.2.2.2 ++ reasonsM
  let recommendations := recs0 ++ recsM
  { overall_status := osrl.1
    risk_level := osrl.2
    stage_0_contradictions := contradictions
    stage_1_clinical := stage_1_clinical
    stage_2_administrative := stage_2_administrative
    ai_recommended_article := ai_article
    ai_recommended_subpoint := ai_subpoint
    ai_recommended_category := ai_category
    ai_confidence := ai_confidence
    ai_reasoning := ai_reasoning
    doctor_article := r.article_hint
    doctor_subpoint := r.subpoint_hint
    doctor_category := r.doctor_category
    category_match_status := cms
    should_review := shouldReviewFlag osrl.1 osrl.2 review_reasons
    review_reasons := review_reasons
    recommendations := recommendations
    is_healthy := is_healthy
    metadata :=
      { model := clinical.model
        total_duration_seconds := dt
        stage_0_duration_seconds := d0
        stage_1_duration_seconds := d1
        stage_2_duration_seconds := d2
        tokens_used := clinical.tokens
        graph := r.graph
        specialty := r.specialty } }

/-- `FullValidationService.full_validation_with_contradiction_check`:
Stage 0 (contradiction check) followed by the aggregation of stages 1-3.
`clinical` is the Stage-1 output of the external completion capability
(`ai_analyzer.determine_subpoint`); `d0 d1 d2 dt` are the wall-clock
durations measured around the stages. -/
def full_validation_with_contradiction_check (dist : Dist) (embed : Embed)
    (store : List Criterion) (V : Vocab) (drows : List PointDiagnosis)
    (r : ExaminationRecord) (clinical : ClinicalResult) (d0 d1 d2 dt : ℚ) :
    CheckDoctorConclusionResponse :=
  aggregate_validation
    (check_for_contradictions dist embed store V r.diagnosis_text
      r.doctor_category r.anamnesis r.complaints r.objective_data
      r.special_research_results r.doctor_notes r.graph)
    drows r clinical d0 d1 d2 dt

/-- The verdict with all four duration fields zeroed: two verdicts are equal
up to durations iff their images under this map are equal. -/
def stripDurations (v : CheckDoctorConclusionResponse) : CheckDoctorConclusionResponse :=
  { v with
    stage_1_clinical := { v.stage_1_clinical with duration_seconds := 0 }
    stage_2_administrative := { v.stage_2_administrative with duration_seconds := 0 }
    metadata :=
      { v.metadata with
        total_duration_seconds := 0
        stage_0_duration_seconds := 0
        stage_1_duration_seconds := 0
        stage_2_duration_seconds := 0 } }

/-- Cosine distance in dimension one (`1 - u·v / (‖u‖‖v‖)`): the pgvector
operator on one-dimensional embeddings. -/
def cosDist1 : Dist := fun u v =>
  1 - (u.headD 0 * v.headD 0) / (|u.headD 0| * |v.headD 0|)

/-- A distance oracle for stores whose embeddings coincide with the query
(cosine distance 0). -/
def dist0 : Dist := fun _ _ => 0

/-- An embedding capability returning the unit one-dimensional vector. -/
def okEmbed : Embed := fun _ => Except.ok [1]

/-- An embedding capability returning the opposite unit vector. -/
def negEmbed : Embed := fun _ => Except.ok [-1]

/-- A concrete vocabulary used to instantiate witnesses. -/
def exVocab : Vocab :=
  { healthy_keywords := ["здоров"]
    pathology_keywords := ["болезнь"]
    severe_keywords := ["туберкулез"] }

/-- A concrete reference store whose single criterion expects category Д. -/
def exStoreD : List Criterion :=
  [{ article := 43
     subpoint := some "3"
     description := "гипертоническая болезнь"
     criteria_embedding := some [1]
     graph_1 := some "Д"
     graph_2 := some "Д"
     graph_3 := some "В-ИНД"
     graph_4 := some "НГ" }]

/-- A concrete criteria store whose single row stores the empty string as its
graph-1 category. -/
def exStoreEmptyCat : List Criterion :=
  [{ article := 43
     subpoint := some "3"
     description := "гипертоническая болезнь"
     criteria_embedding := some [1]
     graph_1 := some ""
     graph_2 := none
     graph_3 := none
     graph_4 := none }]

/-- A concrete `points_diagnoses` store mapping (43, 3) to Б on graph 1. -/
def exDrowsB : List PointDiagnosis :=
  [{ article := 43
     subpoint := some "3"
     graph_1 := some "Б"
     graph_2 := some "Б"
     graph_3 := some "Б"
     graph_4 := some "Б" }]

/-- A concrete record: hypertension diagnosis, doctor category Б, graph 1. -/
def exRecB : ExaminationRecord :=
  { diagnosis_text := "Гипертоническая болезнь 2 степени"
    doctor_category := "Б"
    specialty := "Терапевт"
    anamnesis := none
    complaints := none
    objective_data := none
    special_research_results := none
    conclusion_text := none
    doctor_notes := none
    article_hint := none
    subpoint_hint := none
    graph := 1 }

/-- A concrete confident non-healthy Stage-1 result pointing at (43, 3). -/
def exClin : ClinicalResult :=
  { is_healthy := false
    article := some 43
    subpoint := some "3"
    confidence := 9/10
    reasoning := ""
    model := "gpt-4o-mini"
    tokens := 0
    matched_criteria := []
    validation_performed := true }


/-! Helper lemmas. -/

theorem rhe_ge_floor (y : ℚ) : ⌊y⌋ ≤ rhe y := by
  unfold rhe
  split_ifs <;> omega

theorem rhe_le_floor_add_one (y : ℚ) : rhe y ≤ ⌊y⌋ + 1 := by
  unfold rhe
  split_ifs <;> omega

theorem rhe_intCast (n : ℤ) : rhe (n : ℚ) = n := by
  unfold rhe
  rw [Int.floor_intCast]
  have h2 : (n : ℚ) - (n : ℚ) = 0 := by ring
  rw [h2]
  norm_num

theorem rhe_mono {x y : ℚ} (h : x ≤ y) : rhe x ≤ rhe y := by
  rcases lt_or_eq_of_le (Int.floor_mono h) with hf | hf
  · calc rhe x ≤ ⌊x⌋ + 1 := rhe_le_floor_add_one x
      _ ≤ ⌊y⌋ := by omega
      _ ≤ rhe y := rhe_ge_floor y
  · unfold rhe
    rw [hf]
    split_ifs <;> first | omega | (exfalso; linarith)

theorem round4_mono {x y : ℚ} (h : x ≤ y) : round4 x ≤ round4 y := by
  unfold round4
  have := rhe_mono (mul_le_mul_of_nonneg_right h (by norm_num : (0:ℚ) ≤ 10000))
  have hcast : ((rhe (x * 10000) : ℤ) : ℚ) ≤ ((rhe (y * 10000) : ℤ) : ℚ) := by
    exact_mod_cast this
  linarith

theorem round4_one : round4 1 = 1 := by
  unfold round4
  have : (1 : ℚ) * 10000 = ((10000 : ℤ) : ℚ) := by norm_num
  rw [this, rhe_intCast]
  norm_num

theorem round4_neg_one : round4 (-1) = -1 := by
  unfold round4
  have : (-1 : ℚ) * 10000 = ((-10000 : ℤ) : ℚ) := by norm_num
  rw [this, rhe_intCast]
  norm_num

theorem round4_le_one {x : ℚ} (h : x ≤ 1) : round4 x ≤ 1 := by
  have := round4_mono h
  rw [round4_one] at this
  exact this

theorem neg_one_le_round4 {x : ℚ} (h : -1 ≤ x) : -1 ≤ round4 x := by
  have := round4_mono h
  rw [round4_neg_one] at this
  exact this

theorem round4_zero : round4 0 = 0 := by
  unfold round4
  have : (0 : ℚ) * 10000 = ((0 : ℤ) : ℚ) := by norm_num
  rw [this, rhe_intCast]
  norm_num

theorem round4_nonneg {x : ℚ} (h : 0 ≤ x) : 0 ≤ round4 x := by
  have := round4_mono h
  rw [round4_zero] at this
  exact this


theorem mem_insertRow {b x : Criterion × ℚ} {l : List (Criterion × ℚ)}
    (hb : b ∈ insertRow x l) : b = x ∨ b ∈ l := by
  induction l with
  | nil =>
    simp only [insertRow, List.mem_singleton] at hb
    exact Or.inl hb
  | cons h2 t2 ih2 =>
    unfold insertRow at hb
    split at hb
    · rcases List.mem_cons.mp hb with h' | h'
      · right; exact List.mem_cons.mpr (Or.inl h')
      · rcases ih2 h' with h'' | h''
        · left; exact h''
        · right; exact List.mem_cons.mpr (Or.inr h'')
    · rcases List.mem_cons.mp hb with h' | h'
      · left; exact h'
      · right; exact h'

theorem insertRow_pairwise (x : Criterion × ℚ) (l : List (Criterion × ℚ))
    (hl : l.Pairwise (fun a b => a.2 ≤ b.2)) :
    (insertRow x l).Pairwise (fun a b => a.2 ≤ b.2) := by
  induction l with
  | nil => simp [insertRow]
  | cons h t ih =>
    rw [List.pairwise_cons] at hl
    unfold insertRow
    split
    · rename_i hle
      rw [List.pairwise_cons]
      constructor
      · intro b hb
        rcases mem_insertRow hb with rfl | hbt
        · exact hle
        · exact hl.1 b hbt
      · exact ih hl.2
    · rename_i hgt
      push_neg at hgt
      rw [List.pairwise_cons]
      constructor
      · intro b hb
        rcases List.mem_cons.mp hb with rfl | hbt
        · exact le_of_lt hgt
        · exact le_trans (le_of_lt hgt) (hl.1 b hbt)
      · rw [List.pairwise_cons]
        exact ⟨hl.1, hl.2⟩

theorem sortByDist_pairwise (l : List (Criterion × ℚ)) :
    (sortByDist l).Pairwise (fun a b => a.2 ≤ b.2) := by
  induction l with
  | nil => simp [sortByDist]
  | cons h t ih => exact insertRow_pairwise h (sortByDist t) ih


theorem search_fail (dist : Dist) (store : List Criterion)
    (text : String) (k : Nat) (thr : ℚ) :
    search_diseases_in_text dist embedFail store text k thr = [] := by
  unfold search_diseases_in_text
  split
  · rfl
  · rfl

theorem search_empty_store (dist : Dist) (embed : Embed)
    (text : String) (k : Nat) (thr : ℚ) :
    search_diseases_in_text dist embed [] text k thr = [] := by
  unfold search_diseases_in_text
  split
  · rfl
  · split
    · rfl
    · simp [sortByDist]

theorem mem_optList {x : Contradiction} {o : Option Contradiction} :
    x ∈ optList o ↔ o = some x := by
  cases o <;> simp [optList] <;> exact comm

theorem check_type_e_shape {V : Vocab} {d c : String} {x : Contradiction}
    (h : check_type_e V d c = some x) :
    x.contradiction_type = ContradictionType.TYPE_E ∧ x.severity = Severity.HIGH := by
  unfold check_type_e at h
  split at h
  · rw [Option.some.injEq] at h
    subst h
    exact ⟨rfl, rfl⟩
  · exact Option.noConfusion h

theorem check_type_f_shape {V : Vocab} {d c : String} {x : Contradiction}
    (h : check_type_f V d c = some x) :
    x.contradiction_type = ContradictionType.TYPE_F ∧ x.severity = Severity.CRITICAL := by
  unfold check_type_f at h
  split at h
  · exact Option.noConfusion h
  · split at h
    · exact Option.noConfusion h
    · rw [Option.some.injEq] at h
      subst h
      exact ⟨rfl, rfl⟩

theorem typeALoop_shape {dist : Dist} {embed : Embed} {store : List Criterion}
    {V : Vocab} {diag : String} {x : Contradiction} :
    ∀ fields, typeALoop dist embed store V diag fields = some x →
      x.contradiction_type = ContradictionType.TYPE_A := by
  intro fields
  induction fields with
  | nil => intro h; exact Option.noConfusion h
  | cons p rest ih =>
    obtain ⟨fn, fv⟩ := p
    intro h
    unfold typeALoop at h
    split at h
    · exact ih h
    · split at h
      · exact ih h
      · rw [Option.some.injEq] at h
        subst h
        rfl

theorem check_type_a_shape {dist : Dist} {embed : Embed} {store : List Criterion}
    {V : Vocab} {diag : String} {fields : List (String × String)} {x : Contradiction}
    (h : check_type_a dist embed store V diag fields = some x) :
    x.contradiction_type = ContradictionType.TYPE_A := by
  unfold check_type_a at h
  split at h
  · exact Option.noConfusion h
  · exact typeALoop_shape fields h

theorem typeBLoop_shape {V : Vocab} {diag : String} {x : Contradiction} :
    ∀ fields, typeBLoop V diag fields = some x →
      x.contradiction_type = ContradictionType.TYPE_B ∧ x.severity = Severity.MEDIUM := by
  intro fields
  induction fields with
  | nil => intro h; exact Option.noConfusion h
  | cons p rest ih =>
    obtain ⟨fn, fv⟩ := p
    intro h
    unfold typeBLoop at h
    split at h
    · rw [Option.some.injEq] at h
      subst h
      exact ⟨rfl, rfl⟩
    · exact ih h

theorem check_type_b_shape {V : Vocab} {diag : String}
    {fields : List (String × String)} {x : Contradiction}
    (h : check_type_b V diag fields = some x) :
    x.contradiction_type = ContradictionType.TYPE_B ∧ x.severity = Severity.MEDIUM := by
  unfold check_type_b at h
  split at h
  · exact Option.noConfusion h
  · exact typeBLoop_shape fields h

theorem typeCDiseaseLoop_shape {diag fn fv : String} {d0 : Disease} {x : Contradiction} :
    ∀ ds, typeCDiseaseLoop diag fn fv d0 ds = some x →
      x.contradiction_type = ContradictionType.TYPE_C := by
  intro ds
  induction ds with
  | nil => intro h; exact Option.noConfusion h
  | cons d rest ih =>
    intro h
    unfold typeCDiseaseLoop at h
    split at h
    · split at h
      · rw [Option.some.injEq] at h
        subst h
        rfl
      · exact ih h
    · exact ih h

theorem typeCFieldLoop_shape {dist : Dist} {embed : Embed} {store : List Criterion}
    {V : Vocab} {diag : String} {d0 : Disease} {x : Contradiction} :
    ∀ fields, typeCFieldLoop dist embed store V diag d0 fields = some x →
      x.contradiction_type = ContradictionType.TYPE_C := by
  intro fields
  induction fields with
  | nil => intro h; exact Option.noConfusion h
  | cons p rest ih =>
    obtain ⟨fn, fv⟩ := p
    intro h
    unfold typeCFieldLoop at h
    split at h
    · exact ih h
    · split at h
      · rename_i c hc
        rw [Option.some.injEq] at h
        subst h
        exact typeCDiseaseLoop_shape _ hc
      · exact ih h

theorem check_type_c_shape {dist : Dist} {embed : Embed} {store : List Criterion}
    {V : Vocab} {diag : String} {fields : List (String × String)} {x : Contradiction}
    (h : check_type_c dist embed store V diag fields = some x) :
    x.contradiction_type = ContradictionType.TYPE_C := by
  unfold check_type_c at h
  split at h
  · exact Option.noConfusion h
  · split at h
    · exact Option.noConfusion h
    · exact typeCFieldLoop_shape fields h

theorem check_type_d_shape {dist : Dist} {embed : Embed} {store : List Criterion}
    {V : Vocab} {diag cat : String} {g : Nat} {x : Contradiction}
    (h : check_type_d dist embed store V diag cat g = some x) :
    x.contradiction_type = ContradictionType.TYPE_D := by
  unfold check_type_d at h
  split at h
  · exact Option.noConfusion h
  · split at h
    · exact Option.noConfusion h
    · split at h
      · exact Option.noConfusion h
      · split at h
        · exact Option.noConfusion h
        · split at h
          · exact Option.noConfusion h
          · rw [Option.some.injEq] at h
            subst h
            rfl

theorem mem_check_for_contradictions {dist : Dist} {embed : Embed}
    {store : List Criterion} {V : Vocab} {diag cat : String}
    {an co ob sp no : Option String} {g : Nat} {x : Contradiction} :
    x ∈ check_for_contradictions dist embed store V diag cat an co ob sp no g ↔
      (check_type_e V diag cat = some x ∨
       check_type_f V diag cat = some x ∨
       check_type_a dist embed store V diag (nonEmptyFields an co ob sp no) = some x ∨
       check_type_b V diag (nonEmptyFields an co ob sp no) = some x ∨
       check_type_c dist embed store V diag (nonEmptyFields an co ob sp no) = some x ∨
       check_type_d dist embed store V diag cat g = some x) := by
  unfold check_for_contradictions
  simp only [List.mem_append, mem_optList]
  tauto

theorem typeALoop_retrieval_empty {dist : Dist} {embed : Embed}
    {store : List Criterion} {V : Vocab} {diag : String}
    (hs : ∀ t k th, search_diseases_in_text dist embed store t k th = []) :
    ∀ fields, typeALoop dist embed store V diag fields = none := by
  intro fields
  induction fields with
  | nil => rfl
  | cons p rest ih =>
    obtain ⟨fn, fv⟩ := p
    unfold typeALoop
    rw [hs]
    simp [ih]

theorem check_type_a_retrieval_empty {dist : Dist} {embed : Embed}
    {store : List Criterion} {V : Vocab} {diag : String}
    (hs : ∀ t k th, search_diseases_in_text dist embed store t k th = [])
    (fields : List (String × String)) :
    check_type_a dist embed store V diag fields = none := by
  unfold check_type_a
  split
  · rfl
  · exact typeALoop_retrieval_empty hs fields

theorem check_type_c_retrieval_empty {dist : Dist} {embed : Embed}
    {store : List Criterion} {V : Vocab} {diag : String}
    (hs : ∀ t k th, search_diseases_in_text dist embed store t k th = [])
    (fields : List (String × String)) :
    check_type_c dist embed store V diag fields = none := by
  unfold check_type_c
  split
  · rfl
  · rw [hs]

theorem check_type_d_retrieval_empty {dist : Dist} {embed : Embed}
    {store : List Criterion} {V : Vocab} {diag cat : String}
    (hs : ∀ t k th, search_diseases_in_text dist embed store t k th = [])
    (g : Nat) :
    check_type_d dist embed store V diag cat g = none := by
  unfold check_type_d
  split
  · rfl
  · rw [hs]

theorem check_for_contradictions_retrieval_empty {dist : Dist} {embed : Embed}
    {store : List Criterion}
    (hs : ∀ t k th, search_diseases_in_text dist embed store t k th = [])
    (V : Vocab) (diag cat : String) (an co ob sp no : Option String) (g : Nat) :
    check_for_contradictions dist embed store V diag cat an co ob sp no g =
      optList (check_type_e V diag cat) ++ optList (check_type_f V diag cat)
        ++ optList (check_type_b V diag (nonEmptyFields an co ob sp no)) := by
  unfold check_for_contradictions
  rw [check_type_a_retrieval_empty hs, check_type_c_retrieval_empty hs,
    check_type_d_retrieval_empty hs]
  simp [optList]

theorem shouldReviewFlag_iff (os : OverallStatus) (rl : Severity) (rr : List String) :
    shouldReviewFlag os rl rr = true ↔
      (os ≠ OverallStatus.VALID ∨ rr ≠ [] ∨
        rl = Severity.HIGH ∨ rl = Severity.CRITICAL) := by
  cases os <;> cases rl <;>
    simp [shouldReviewFlag, List.length_pos]

/-! Claim theorems. -/

/-- C1: for every Verdict produced by the full validation pipeline,
`should_review` is true exactly when the overall status is not VALID, or the
review-reason list is non-empty, or the risk level is HIGH or CRITICAL; in
particular it is true whenever any of the three conditions holds. -/
theorem C1_should_review_disjunction (dist : Dist) (embed : Embed)
    (store : List Criterion) (V : Vocab) (drows : List PointDiagnosis)
    (r : ExaminationRecord) (clinical : ClinicalResult) (d0 d1 d2 dt : ℚ) :
    let v := full_validation_with_contradiction_check dist embed store V drows r
      clinical d0 d1 d2 dt
    v.should_review = true ↔
      (v.overall_status ≠ OverallStatus.VALID ∨ v.review_reasons ≠ [] ∨
        v.risk_level = Severity.HIGH ∨ v.risk_level = Severity.CRITICAL) := by
  intro v
  have h : v.should_review = shouldReviewFlag v.overall_status v.risk_level
      v.review_reasons := rfl
  rw [h]
  exact shouldReviewFlag_iff _ _ _

/-- C8: two runs of the pipeline on the identical record, the same reference
stores and the same deterministic external embedding/completion outputs yield
Verdicts equal in every field except the duration fields. -/
theorem C8_idempotent_up_to_durations (dist : Dist) (embed : Embed)
    (store : List Criterion) (V : Vocab) (drows : List PointDiagnosis)
    (r : ExaminationRecord) (clinical : ClinicalResult)
    (d0 d1 d2 dt d0' d1' d2' dt' : ℚ) :
    stripDurations (full_validation_with_contradiction_check dist embed store V
        drows r clinical d0 d1 d2 dt) =
      stripDurations (full_validation_with_contradiction_check dist embed store V
        drows r clinical d0' d1' d2' dt') := rfl

/-- C10: when the embedding capability raises during a Stage-0 retrieval,
`search_diseases_in_text` returns the empty list, the retrieval-based checks
A, C and D report no contradiction, and the full verdict is identical to the
verdict computed over an empty reference store: at the public interface the
failure is indistinguishable from a store with no matches and produces no
ERROR status and no review reason. -/
theorem C10_stage0_failure_invisible (dist : Dist) (embed : Embed)
    (store : List Criterion) (V : Vocab) (drows : List PointDiagnosis)
    (r : ExaminationRecord) (clinical : ClinicalResult) (d0 d1 d2 dt : ℚ) :
    (∀ t k th, search_diseases_in_text dist embedFail store t k th = []) ∧
    (∀ diag fields, check_type_a dist embedFail store V diag fields = none) ∧
    (∀ diag fields, check_type_c dist embedFail store V diag fields = none) ∧
    (∀ diag cat g, check_type_d dist embedFail store V diag cat g = none) ∧
    full_validation_with_contradiction_check dist embedFail store V drows r
        clinical d0 d1 d2 dt =
      full_validation_with_contradiction_check dist embed [] V drows r
        clinical d0 d1 d2 dt := by
  refine ⟨search_fail dist store, ?_, ?_, ?_, ?_⟩
  · intro diag fields
    exact check_type_a_retrieval_empty (search_fail dist store) fields
  · intro diag fields
    exact check_type_c_retrieval_empty (search_fail dist store) fields
  · intro diag cat g
    exact check_type_d_retrieval_empty (search_fail dist store) g
  · unfold full_validation_with_contradiction_check
    rw [check_for_contradictions_retrieval_empty (search_fail dist store),
      check_for_contradictions_retrieval_empty
        (fun t k th => search_empty_store dist embed t k th)]

/-- C2 (counterexample): on a record whose Stage-0 retrievals fail because the
embedding capability raises, the pipeline returns a Verdict with no ERROR
stage status, no review reason and no finding at all — the failed stage is
not reported — although the same record with a working embedding capability
does produce a Stage-0 finding. -/
theorem C2_counterexample :
    (full_validation_with_contradiction_check dist0 embedFail exStoreD exVocab
        exDrowsB exRecB exClin 0 0 0 0).stage_0_contradictions = [] ∧
    (full_validation_with_contradiction_check dist0 embedFail exStoreD exVocab
        exDrowsB exRecB exClin 0 0 0 0).stage_1_clinical.status = "SUCCESS" ∧
    (full_validation_with_contradiction_check dist0 embedFail exStoreD exVocab
        exDrowsB exRecB exClin 0 0 0 0).stage_2_administrative.status = "SUCCESS" ∧
    (full_validation_with_contradiction_check dist0 embedFail exStoreD exVocab
        exDrowsB exRecB exClin 0 0 0 0).review_reasons = [] ∧
    (full_validation_with_contradiction_check dist0 embedFail exStoreD exVocab
        exDrowsB exRecB exClin 0 0 0 0).should_review = false ∧
    (full_validation_with_contradiction_check dist0 okEmbed exStoreD exVocab
        exDrowsB exRecB exClin 0 0 0 0).stage_0_contradictions ≠ [] := by
  refine ⟨?_, ?_, ?_, ?_, ?_, ?_⟩ <;> with_unfolding_all decide

/-- C2 (amended): the pipeline still returns a complete Verdict when the
embedding capability fails during Stage 0 — stages 1 and 2 are unaffected and
appear in the Verdict — but the failure itself is not reported: the Stage-0
findings that remain are of the non-retrieval types E, F or B, and no ERROR
status or review reason records the failure. -/
theorem C2_amended_silent_degradation (dist : Dist) (embed : Embed)
    (store : List Criterion) (V : Vocab) (drows : List PointDiagnosis)
    (r : ExaminationRecord) (clinical : ClinicalResult) (d0 d1 d2 dt : ℚ) :
    let vfail := full_validation_with_contradiction_check dist embedFail store V
      drows r clinical d0 d1 d2 dt
    let vok := full_validation_with_contradiction_check dist embed store V
      drows r clinical d0 d1 d2 dt
    vfail.stage_1_clinical = vok.stage_1_clinical ∧
    vfail.stage_2_administrative = vok.stage_2_administrative ∧
    ∀ c ∈ vfail.stage_0_contradictions,
      c.contradiction_type = ContradictionType.TYPE_E ∨
      c.contradiction_type = ContradictionType.TYPE_F ∨
      c.contradiction_type = ContradictionType.TYPE_B := by
  intro vfail vok
  refine ⟨rfl, rfl, ?_⟩
  intro c hc
  have hc2 : c ∈ check_for_contradictions dist embedFail store V r.diagnosis_text
      r.doctor_category r.anamnesis r.complaints r.objective_data
      r.special_research_results r.doctor_notes r.graph := hc
  rcases mem_check_for_contradictions.mp hc2 with he | hf | ha | hb | hcc | hd
  · exact Or.inl (check_type_e_shape he).1
  · exact Or.inr (Or.inl (check_type_f_shape hf).1)
  · rw [check_type_a_retrieval_empty (search_fail dist store)] at ha
    exact Option.noConfusion ha
  · exact Or.inr (Or.inr (check_type_b_shape hb).1)
  · rw [check_type_c_retrieval_empty (search_fail dist store)] at hcc
    exact Option.noConfusion hcc
  · rw [check_type_d_retrieval_empty (search_fail dist store)] at hd
    exact Option.noConfusion hd

/-- C2 (amended) witness: the stage-1 result under a failing embedding equals
the one under a working embedding on a concrete record. -/
theorem C2_amended_silent_degradation_witness :
    (full_validation_with_contradiction_check dist0 embedFail exStoreD exVocab
        exDrowsB exRecB exClin 0 0 0 0).stage_1_clinical =
      (full_validation_with_contradiction_check dist0 okEmbed exStoreD exVocab
        exDrowsB exRecB exClin 0 0 0 0).stage_1_clinical :=
  (C2_amended_silent_degradation dist0 okEmbed exStoreD exVocab exDrowsB exRecB
    exClin 0 0 0 0).1

/-- C9: the Type C check's outcome is independent of the record's
conscription graph — the pipeline run on two graphs yields identical Type C
findings, because `_check_type_c` never reads the graph (its severity
comparison uses only the graph-1 categories). -/
theorem C9_type_c_graph_invariant (dist : Dist) (embed : Embed)
    (store : List Criterion) (V : Vocab) (diag cat : String)
    (an co ob sp no : Option String) (g g' : Nat) :
    (check_for_contradictions dist embed store V diag cat an co ob sp no g).filter
        (fun c => c.contradiction_type == ContradictionType.TYPE_C) =
      (check_for_contradictions dist embed store V diag cat an co ob sp no g').filter
        (fun c => c.contradiction_type == ContradictionType.TYPE_C) := by
  have hD : ∀ gg : Nat,
      (optList (check_type_d dist embed store V diag cat gg)).filter
        (fun c => c.contradiction_type == ContradictionType.TYPE_C) = [] := by
    intro gg
    cases hcd : check_type_d dist embed store V diag cat gg with
    | none => rfl
    | some x =>
      have hx := check_type_d_shape hcd
      simp only [optList, List.filter, hx]
      rfl
  unfold check_for_contradictions
  simp only [List.filter_append]
  rw [hD g, hD g']

theorem check_type_f_none_of_other_category {V : Vocab} {diag cat : String}
    (h1 : pyStrip (pyUpper cat) ≠ "А") (h2 : pyStrip (pyUpper cat) ≠ "A") :
    check_type_f V diag cat = none := by
  unfold check_type_f
  split
  · rfl
  · rename_i h
    exfalso
    apply h
    simp [h1, h2]

/-- The keyword scan of `_contains_severe_condition` succeeds whenever some
keyword occurs with no negation marker in either window around its first
occurrence. -/
theorem severeScan_finds {lower : List Char} :
    ∀ ks : List String,
      (∃ k ∈ ks, ∃ i, subFind k.data lower = some i ∧
        (∀ n ∈ severeNegationsBefore, subFind n.data (pySlice lower (i - 25) i) = none) ∧
        (∀ n ∈ severeNegationsAfter,
          subFind n.data (pySlice lower (i + k.data.length) (i + k.data.length + 30)) = none)) →
      ∃ kw, severeScan lower ks = some kw := by
  intro ks
  induction ks with
  | nil => rintro ⟨k, hk, _⟩; exact absurd hk (List.not_mem_nil k)
  | cons k0 rest ih =>
    rintro ⟨k, hk, i, hfind, hnb, hna⟩
    cases h0 : subFind k0.data lower with
    | none =>
      have hrw : severeScan lower (k0 :: rest) = severeScan lower rest := by
        simp only [severeScan]
        rw [h0]
      rw [hrw]
      rcases List.mem_cons.mp hk with rfl | hkr
      · rw [h0] at hfind
        exact Option.noConfusion hfind
      · exact ih ⟨k, hkr, i, hfind, hnb, hna⟩
    | some pos =>
      have hrw : severeScan lower (k0 :: rest) =
          if severeNegationsBefore.any
              (fun n => (subFind n.data (pySlice lower (pos - 25) pos)).isSome)
            || severeNegationsAfter.any
              (fun n => (subFind n.data
                (pySlice lower (pos + k0.data.length) (pos + k0.data.length + 30))).isSome)
          then severeScan lower rest
          else some k0 := by
        simp only [severeScan]
        rw [h0]
      rw [hrw]
      split
      · rename_i hneg
        rcases List.mem_cons.mp hk with rfl | hkr
        · rw [h0] at hfind
          rw [Option.some.injEq] at hfind
          subst hfind
          rw [Bool.or_eq_true, List.any_eq_true, List.any_eq_true] at hneg
          rcases hneg with ⟨n, hn, hsome⟩ | ⟨n, hn, hsome⟩
          · rw [hnb n hn] at hsome
            simp at hsome
          · rw [hna n hn] at hsome
            simp at hsome
        · exact ih ⟨k, hkr, i, hfind, hnb, hna⟩
      · exact ⟨k0, rfl⟩

/-- C3: whenever the doctor's category normalizes to Cyrillic А or Latin A and
the diagnosis contains a severe-condition keyword whose first occurrence has
no negation marker in the 25-character window before it nor in the
30-character window after it, Stage 0 emits a Type F finding with severity
CRITICAL; for any other doctor category no Type F finding is ever emitted.
(The vocabulary is assumed free of the degenerate empty keyword.) -/
theorem C3_type_f_characterization (dist : Dist) (embed : Embed)
    (store : List Criterion) (V : Vocab) (diag cat : String)
    (an co ob sp no : Option String) (g : Nat)
    (hne : ∀ k ∈ V.severe_keywords, k ≠ "") :
    ((pyStrip (pyUpper cat) = "А" ∨ pyStrip (pyUpper cat) = "A") →
      (∃ k ∈ V.severe_keywords, ∃ i,
          subFind k.data (pyLower diag).data = some i ∧
          (∀ n ∈ severeNegationsBefore,
            subFind n.data (pySlice (pyLower diag).data (i - 25) i) = none) ∧
          (∀ n ∈ severeNegationsAfter,
            subFind n.data (pySlice (pyLower diag).data (i + k.data.length)
              (i + k.data.length + 30)) = none)) →
      ∃ c ∈ check_for_contradictions dist embed store V diag cat an co ob sp no g,
        c.contradiction_type = ContradictionType.TYPE_F ∧
        c.severity = Severity.CRITICAL) ∧
    ((pyStrip (pyUpper cat) ≠ "А" ∧ pyStrip (pyUpper cat) ≠ "A") →
      ∀ c ∈ check_for_contradictions dist embed store V diag cat an co ob sp no g,
        c.contradiction_type ≠ ContradictionType.TYPE_F) := by
  constructor
  · intro hcat hex
    have hdiag : diag ≠ "" := by
      rintro rfl
      rcases hex with ⟨k, hk, i, hfind, -⟩
      have : k.data = [] := by
        have hpl : (pyLower "").data = [] := rfl
        rw [hpl] at hfind
        cases k with
        | mk kd =>
          cases kd with
          | nil => rfl
          | cons a t =>
            unfold subFind at hfind
            simp [List.isPrefixOf] at hfind
      have hkempty : k = "" := by
        cases k
        simp_all
      exact hne k hk hkempty
    have hscan : ∃ kw, severeScan (pyLower diag).data V.severe_keywords = some kw :=
      severeScan_finds V.severe_keywords hex
    rcases hscan with ⟨kw, hkw⟩
    have hsev : contains_severe_condition V diag = some kw := by
      unfold contains_severe_condition
      rw [if_neg]
      · exact hkw
      · simp [String.isEmpty_iff, hdiag]
    have hguard : (!(pyStrip (pyUpper cat) == "А" || pyStrip (pyUpper cat) == "A")) = false := by
      rcases hcat with h | h <;> simp [h]
    have hf : ∃ x, check_type_f V diag cat = some x := by
      unfold check_type_f
      rw [hguard]
      simp only [Bool.false_eq_true, if_false, hsev]
      exact ⟨_, rfl⟩
    rcases hf with ⟨x, hx⟩
    refine ⟨x, ?_, (check_type_f_shape hx).1, (check_type_f_shape hx).2⟩
    exact mem_check_for_contradictions.mpr (Or.inr (Or.inl hx))
  · rintro ⟨h1, h2⟩ c hc
    rcases mem_check_for_contradictions.mp hc with he | hf | ha | hb | hcc | hd
    · rw [(check_type_e_shape he).1]
      intro hcontra
      exact ContradictionType.noConfusion hcontra
    · rw [check_type_f_none_of_other_category h1 h2] at hf
      exact Option.noConfusion hf
    · rw [check_type_a_shape ha]
      intro hcontra
      exact ContradictionType.noConfusion hcontra
    · rw [(check_type_b_shape hb).1]
      intro hcontra
      exact ContradictionType.noConfusion hcontra
    · rw [check_type_c_shape hcc]
      intro hcontra
      exact ContradictionType.noConfusion hcontra
    · rw [check_type_d_shape hd]
      intro hcontra
      exact ContradictionType.noConfusion hcontra

/-- C3 witness: on category А and a diagnosis with an un-negated severe
keyword the pipeline emits the CRITICAL Type F finding. -/
theorem C3_type_f_witness :
    (pyStrip (pyUpper "А") = "А" ∨ pyStrip (pyUpper "А") = "A") ∧
    (∃ k ∈ exVocab.severe_keywords, ∃ i,
        subFind k.data (pyLower "активный туберкулез").data = some i ∧
        (∀ n ∈ severeNegationsBefore,
          subFind n.data (pySlice (pyLower "активный туберкулез").data (i - 25) i) = none) ∧
        (∀ n ∈ severeNegationsAfter,
          subFind n.data (pySlice (pyLower "активный туберкулез").data
            (i + k.data.length) (i + k.data.length + 30)) = none)) ∧
    (∃ c ∈ check_for_contradictions dist0 okEmbed [] exVocab
        "активный туберкулез" "А" none none none none none 1,
      c.contradiction_type = ContradictionType.TYPE_F ∧
      c.severity = Severity.CRITICAL) := by
  refine ⟨Or.inl (by with_unfolding_all decide),
    ⟨"туберкулез", by with_unfolding_all decide, 9,
      by with_unfolding_all decide, by with_unfolding_all decide,
      by with_unfolding_all decide⟩, ?_⟩
  exact (C3_type_f_characterization dist0 okEmbed [] exVocab
      "активный туберкулез" "А" none none none none none 1
      (by with_unfolding_all decide)).1
    (Or.inl (by with_unfolding_all decide))
    ⟨"туберкулез", by with_unfolding_all decide, 9,
      by with_unfolding_all decide, by with_unfolding_all decide,
      by with_unfolding_all decide⟩

theorem check_type_e_some_iff (V : Vocab) (diag cat : String) :
    (∃ x, check_type_e V diag cat = some x) ↔
      (is_healthy_text V diag = true ∧
        pyStrip (pyUpper cat) ≠ "А" ∧ pyStrip (pyUpper cat) ≠ "A") := by
  unfold check_type_e
  split
  · rename_i h
    rw [Bool.and_eq_true] at h
    constructor
    · intro _
      refine ⟨h.1, ?_, ?_⟩
      · intro hc
        rw [hc] at h
        simp at h
      · intro hc
        rw [hc] at h
        simp at h
    · intro _
      exact ⟨_, rfl⟩
  · rename_i h
    constructor
    · rintro ⟨x, hx⟩
      exact Option.noConfusion hx
    · rintro ⟨h1, h2, h3⟩
      exfalso
      apply h
      simp [h1, h2, h3]

/-- C4: Stage 0 emits a Type E finding (severity HIGH) exactly when
`_is_healthy_text` accepts the diagnosis and the normalized doctor category
is neither Cyrillic А nor Latin A; and `_is_healthy_text` accepts a text
exactly when the lower-cased text contains a healthy keyword and every
pathology keyword present carries one of the negation markers in the
20-character window before its first occurrence. (The healthy vocabulary is
assumed free of the degenerate empty keyword.) -/
theorem C4_type_e_characterization (dist : Dist) (embed : Embed)
    (store : List Criterion) (V : Vocab) (diag cat : String)
    (an co ob sp no : Option String) (g : Nat)
    (hne : ∀ k ∈ V.healthy_keywords, k ≠ "") :
    ((∃ c ∈ check_for_contradictions dist embed store V diag cat an co ob sp no g,
        c.contradiction_type = ContradictionType.TYPE_E ∧
        c.severity = Severity.HIGH) ↔
      (is_healthy_text V diag = true ∧
        pyStrip (pyUpper cat) ≠ "А" ∧ pyStrip (pyUpper cat) ≠ "A")) ∧
    (is_healthy_text V diag = true ↔
      ((∃ k ∈ V.healthy_keywords, strIn k (pyLower diag) = true) ∧
       (∀ k ∈ V.pathology_keywords, ∀ i,
          subFind k.data (pyLower diag).data = some i →
          ∃ n ∈ healthyNegations,
            (subFind n.data (pySlice (pyLower diag).data (i - 20) i)).isSome = true))) := by
  constructor
  · constructor
    · rintro ⟨c, hc, htype, hsev⟩
      rcases mem_check_for_contradictions.mp hc with he | hf | ha | hb | hcc | hd
      · exact (check_type_e_some_iff V diag cat).mp ⟨c, he⟩
      · rw [(check_type_f_shape hf).1] at htype
        exact ContradictionType.noConfusion htype
      · rw [check_type_a_shape ha] at htype
        exact ContradictionType.noConfusion htype
      · rw [(check_type_b_shape hb).1] at htype
        exact ContradictionType.noConfusion htype
      · rw [check_type_c_shape hcc] at htype
        exact ContradictionType.noConfusion htype
      · rw [check_type_d_shape hd] at htype
        exact ContradictionType.noConfusion htype
    · intro hcond
      rcases (check_type_e_some_iff V diag cat).mpr hcond with ⟨x, hx⟩
      exact ⟨x, mem_check_for_contradictions.mpr (Or.inl hx),
        (check_type_e_shape hx).1, (check_type_e_shape hx).2⟩
  · by_cases hd : diag = ""
    · subst hd
      constructor
      · intro h
        rw [show is_healthy_text V "" = false from rfl] at h
        exact Bool.noConfusion h
      · rintro ⟨⟨k, hk, hin⟩, -⟩
        exfalso
        apply hne k hk
        unfold strIn at hin
        have hpl : (pyLower "").data = ([] : List Char) := rfl
        rw [hpl] at hin
        cases hik : k.data with
        | nil =>
          cases k
          simp_all
        | cons a t =>
          rw [hik] at hin
          rw [show subFind (a :: t) ([] : List Char) = none from rfl] at hin
          simp at hin
    · have hie : diag.isEmpty = false := by
        rw [Bool.eq_false_iff]
        intro hemp
        exact hd ((String.isEmpty_iff diag).mp hemp)
      unfold is_healthy_text
      rw [hie, if_neg Bool.false_ne_true]
      by_cases hany : V.healthy_keywords.any (fun k => strIn k (pyLower diag)) = true
      · rw [if_pos hany]
        constructor
        · intro hall
          refine ⟨List.any_eq_true.mp hany, ?_⟩
          intro k hk i hi
          have hthis := List.all_eq_true.mp hall k hk
          rw [hi] at hthis
          exact List.any_eq_true.mp hthis
        · rintro ⟨-, hforall⟩
          apply List.all_eq_true.mpr
          intro k hk
          cases hi : subFind k.data (pyLower diag).data with
          | none => rfl
          | some i => exact List.any_eq_true.mpr (hforall k hk i hi)
      · rw [if_neg hany]
        simp only [Bool.false_eq_true, false_iff]
        rintro ⟨⟨k, hk, hin⟩, -⟩
        exact hany (List.any_eq_true.mpr ⟨k, hk, hin⟩)

/-- C4 witness: on the healthy diagnosis text and category Б the pipeline
emits the HIGH Type E finding, and `_is_healthy_text` accepts the text. -/
theorem C4_type_e_witness :
    is_healthy_text exVocab "Здоров, патологии не выявлены" = true ∧
    (∃ c ∈ check_for_contradictions dist0 okEmbed [] exVocab
        "Здоров, патологии не выявлены" "Б" none none none none none 1,
      c.contradiction_type = ContradictionType.TYPE_E ∧
      c.severity = Severity.HIGH) := by
  refine ⟨by with_unfolding_all decide, ?_⟩
  exact ((C4_type_e_characterization dist0 okEmbed [] exVocab
      "Здоров, патологии не выявлены" "Б" none none none none none 1
      (by with_unfolding_all decide)).1).mpr
    ⟨by with_unfolding_all decide, by with_unfolding_all decide,
      by with_unfolding_all decide⟩

/-- C5 (counterexample): the top-1 retrieved criterion stores the empty
string — a non-null value — as its graph-1 category, the normalized
categories differ from the doctor's Б, the diagnosis is not healthy text,
and yet Stage 0 emits no Type D finding: the code discards empty-string
categories exactly like null ones. -/
theorem C5_counterexample :
    is_healthy_text exVocab "Гипертоническая болезнь 2 степени" = false ∧
    (search_diseases_in_text dist0 okEmbed exStoreEmptyCat
        "Гипертоническая болезнь 2 степени" 1 (70/100)).map (fun d => d.catOf 1) =
      [some ""] ∧
    pyStrip (pyUpper "") ≠ pyStrip (pyUpper "Б") ∧
    check_type_d dist0 okEmbed exStoreEmptyCat exVocab
      "Гипертоническая болезнь 2 степени" "Б" 1 = none ∧
    (∀ c ∈ check_for_contradictions dist0 okEmbed exStoreEmptyCat exVocab
        "Гипертоническая болезнь 2 степени" "Б" none none none none none 1,
      c.contradiction_type ≠ ContradictionType.TYPE_D) := by
  with_unfolding_all decide

/-- C5 (amended): with a non-healthy diagnosis, a Type D finding is emitted
exactly when the top-1 retrieval at threshold 0.70 yields a criterion whose
category for the record's graph is non-null AND non-empty and differs from
the normalized doctor category; its severity is CRITICAL when the ordinal
distance of the two categories under the shared `category_severity` table is
at least 2 and HIGH otherwise; with agreeing categories, an absent or
null/empty category, an empty retrieval or a healthy diagnosis no Type D
finding is emitted. -/
theorem C5_type_d_characterization (dist : Dist) (embed : Embed)
    (store : List Criterion) (V : Vocab) (diag cat : String) (g : Nat)
    (an co ob sp no : Option String) :
    (is_healthy_text V diag = true →
      check_type_d dist embed store V diag cat g = none) ∧
    (search_diseases_in_text dist embed store diag 1 (70/100) = [] →
      check_type_d dist embed store V diag cat g = none) ∧
    (is_healthy_text V diag = false →
      ∀ best rest,
        search_diseases_in_text dist embed store diag 1 (70/100) = best :: rest →
        ((best.catOf g = none → check_type_d dist embed store V diag cat g = none) ∧
         (best.catOf g = some "" → check_type_d dist embed store V diag cat g = none) ∧
         (∀ ec, best.catOf g = some ec → ec ≠ "" →
           ((pyStrip (pyUpper cat) = pyStrip (pyUpper ec) →
              check_type_d dist embed store V diag cat g = none) ∧
            (pyStrip (pyUpper cat) ≠ pyStrip (pyUpper ec) →
              ∃ x, check_type_d dist embed store V diag cat g = some x ∧
                x.contradiction_type = ContradictionType.TYPE_D ∧
                x.severity =
                  (if 2 ≤ ((category_severity (pyStrip (pyUpper cat)) : ℤ) -
                      category_severity (pyStrip (pyUpper ec))).natAbs
                   then Severity.CRITICAL else Severity.HIGH)))))) ∧
    ((∃ x, check_type_d dist embed store V diag cat g = some x) ↔
      ∃ c ∈ check_for_contradictions dist embed store V diag cat an co ob sp no g,
        c.contradiction_type = ContradictionType.TYPE_D) := by
  refine ⟨?_, ?_, ?_, ?_⟩
  · intro hh
    unfold check_type_d
    rw [hh]
    rfl
  · intro hs
    unfold check_type_d
    rw [hs]
    split <;> rfl
  · intro hh best rest hsearch
    refine ⟨?_, ?_, ?_⟩
    · intro hcat
      unfold check_type_d
      rw [hh, if_neg Bool.false_ne_true, hsearch]
      dsimp only
      rw [hcat]
    · intro hcat
      unfold check_type_d
      rw [hh, if_neg Bool.false_ne_true, hsearch]
      dsimp only
      rw [hcat]
      rfl
    · intro ec hcat hne
      have hie : ec.isEmpty = false := by
        rw [Bool.eq_false_iff]
        intro hemp
        exact hne ((String.isEmpty_iff ec).mp hemp)
      constructor
      · intro heq
        unfold check_type_d
        rw [hh, if_neg Bool.false_ne_true, hsearch]
        dsimp only
        rw [hcat]
        dsimp only
        rw [hie, if_neg Bool.false_ne_true]
        rw [if_pos]
        simp [heq]
      · intro hne2
        unfold check_type_d
        rw [hh, if_neg Bool.false_ne_true, hsearch]
        dsimp only
        rw [hcat]
        dsimp only
        rw [hie, if_neg Bool.false_ne_true]
        rw [if_neg]
        · exact ⟨_, rfl, rfl, rfl⟩
        · simp [hne2]
  · constructor
    · rintro ⟨x, hx⟩
      exact ⟨x, mem_check_for_contradictions.mpr
        (Or.inr (Or.inr (Or.inr (Or.inr (Or.inr hx))))),
        check_type_d_shape hx⟩
    · rintro ⟨c, hc, htype⟩
      rcases mem_check_for_contradictions.mp hc with he | hf | ha | hb | hcc | hd
      · rw [(check_type_e_shape he).1] at htype
        exact ContradictionType.noConfusion htype
      · rw [(check_type_f_shape hf).1] at htype
        exact ContradictionType.noConfusion htype
      · rw [check_type_a_shape ha] at htype
        exact ContradictionType.noConfusion htype
      · rw [(check_type_b_shape hb).1] at htype
        exact ContradictionType.noConfusion htype
      · rw [check_type_c_shape hcc] at htype
        exact ContradictionType.noConfusion htype
      · exact ⟨c, hd⟩

set_option maxRecDepth 4000 in
/-- C5 witness: doctor Б against an expected Д (ordinal distance 3) makes
Type D fire with severity CRITICAL. -/
theorem C5_type_d_witness :
    is_healthy_text exVocab "Гипертоническая болезнь 2 степени" = false ∧
    (∃ x, check_type_d dist0 okEmbed exStoreD exVocab
        "Гипертоническая болезнь 2 степени" "Б" 1 = some x ∧
      x.contradiction_type = ContradictionType.TYPE_D ∧
      x.severity =
        (if 2 ≤ ((category_severity (pyStrip (pyUpper "Б")) : ℤ) -
            category_severity (pyStrip (pyUpper "Д"))).natAbs
         then Severity.CRITICAL else Severity.HIGH)) := by
  refine ⟨by with_unfolding_all decide, ?_⟩
  exact (((C5_type_d_characterization dist0 okEmbed exStoreD exVocab
      "Гипертоническая болезнь 2 степени" "Б" 1
      none none none none none).2.2.1
    (by with_unfolding_all decide)
    (mkDisease (exStoreD.headD
      { article := 0, subpoint := none, description := "", criteria_embedding := none,
        graph_1 := none, graph_2 := none, graph_3 := none, graph_4 := none }) 0) []
    (by with_unfolding_all decide)).2.2 "Д"
    (by with_unfolding_all decide) (by with_unfolding_all decide)).2
    (by with_unfolding_all decide)

theorem mem_sortByDist {x : Criterion × ℚ} {l : List (Criterion × ℚ)}
    (h : x ∈ sortByDist l) : x ∈ l := by
  induction l with
  | nil => exact absurd h (List.not_mem_nil x)
  | cons hd tl ih =>
    unfold sortByDist at h
    rcases mem_insertRow h with rfl | h2
    · exact List.mem_cons_self x tl
    · exact List.mem_cons.mpr (Or.inr (ih h2))

/-- C6 (amended): `search_diseases_in_text` returns the empty list when the
trimmed query is shorter than 10 characters; otherwise — the pgvector cosine
distance lying in [0, 2] — every returned similarity lies in [-1, 1] (and in
[0, 1] whenever the threshold is non-negative), and the entries are ordered
non-increasing by similarity (1 minus distance rounded to 4 decimals, the
threshold filter applied to the unrounded similarity after taking the
top-K). -/
theorem C6_search_properties (dist : Dist) (embed : Embed)
    (store : List Criterion) (text : String) (top_k : Nat) (thr : ℚ)
    (hdist : ∀ u v, 0 ≤ dist u v ∧ dist u v ≤ 2) :
    ((pyStrip text).length < 10 →
      search_diseases_in_text dist embed store text top_k thr = []) ∧
    (∀ d ∈ search_diseases_in_text dist embed store text top_k thr,
      -1 ≤ d.similarity ∧ d.similarity ≤ 1) ∧
    (0 ≤ thr → ∀ d ∈ search_diseases_in_text dist embed store text top_k thr,
      0 ≤ d.similarity) ∧
    (search_diseases_in_text dist embed store text top_k thr).Pairwise
      (fun x y => y.similarity ≤ x.similarity) := by
  unfold search_diseases_in_text
  split
  · exact ⟨fun _ => rfl, by simp, by simp, by simp⟩
  · rename_i hlen
    refine ⟨fun h => absurd h hlen, ?_⟩
    split
    · exact ⟨by simp, by simp, by simp⟩
    · rename_i q hq
      refine ⟨?_, ?_, ?_⟩
      · intro d hd
        rw [List.mem_map] at hd
        obtain ⟨cd, hcd, rfl⟩ := hd
        rw [List.mem_filter] at hcd
        obtain ⟨hcdtake, hthr⟩ := hcd
        have hcd3 : cd ∈ (store.filter (fun c => c.criteria_embedding.isSome)).map
            (fun c => (c, dist (c.criteria_embedding.getD []) q)) :=
          mem_sortByDist (List.mem_of_mem_take hcdtake)
        rw [List.mem_map] at hcd3
        obtain ⟨c, hc, rfl⟩ := hcd3
        constructor
        · have h2 := (hdist (c.criteria_embedding.getD []) q).2
          exact neg_one_le_round4 (by linarith)
        · have h1 := (hdist (c.criteria_embedding.getD []) q).1
          exact round4_le_one (by linarith)
      · intro hthr0 d hd
        rw [List.mem_map] at hd
        obtain ⟨cd, hcd, rfl⟩ := hd
        rw [List.mem_filter] at hcd
        obtain ⟨hcdtake, hthr⟩ := hcd
        have hraw := of_decide_eq_true hthr
        exact round4_nonneg (by linarith)
      · rw [List.pairwise_map]
        apply List.Pairwise.sublist (List.filter_sublist _)
        apply List.Pairwise.sublist (List.take_sublist _ _)
        apply List.Pairwise.imp ?_
          (sortByDist_pairwise ((store.filter
            (fun c => c.criteria_embedding.isSome)).map
            (fun c => (c, dist (c.criteria_embedding.getD []) q))))
        intro a b hab
        exact round4_mono (by linarith)

/-- C6 witness: on a short query the search is empty; on a long query over
the concrete store every similarity is within the bounds, and non-negative
at the non-negative threshold 0.65. -/
theorem C6_search_properties_witness :
    (0 : ℚ) ≤ dist0 [] [] ∧ dist0 [] [] ≤ 2 ∧
    search_diseases_in_text dist0 okEmbed exStoreD "abc" 5 (65/100) = [] ∧
    (∀ d ∈ search_diseases_in_text dist0 okEmbed exStoreD
        "Гипертоническая болезнь 2 степени" 5 (65/100),
      -1 ≤ d.similarity ∧ d.similarity ≤ 1) ∧
    (∀ d ∈ search_diseases_in_text dist0 okEmbed exStoreD
        "Гипертоническая болезнь 2 степени" 5 (65/100),
      0 ≤ d.similarity) := by
  have hdist : ∀ u v, 0 ≤ dist0 u v ∧ dist0 u v ≤ 2 := by
    intro u v
    refine ⟨le_refl 0, ?_⟩
    show (0 : ℚ) ≤ 2
    norm_num
  refine ⟨le_refl 0, by show (0 : ℚ) ≤ 2 ; norm_num, ?_, ?_, ?_⟩
  · exact (C6_search_properties dist0 okEmbed exStoreD "abc" 5 (65/100) hdist).1
      (by with_unfolding_all decide)
  · exact (C6_search_properties dist0 okEmbed exStoreD
      "Гипертоническая болезнь 2 степени" 5 (65/100) hdist).2.1
  · exact (C6_search_properties dist0 okEmbed exStoreD
      "Гипертоническая болезнь 2 степени" 5 (65/100) hdist).2.2.1
      (by norm_num)

/-- C6 (counterexample): the cosine distance between the one-dimensional
embeddings [1] and [-1] is 2, so with threshold -1 the endpoint returns a
similarity of -1, outside [0, 1] — the claimed bound fails for negative
thresholds. -/
theorem C6_counterexample :
    cosDist1 [1] [-1] = 2 ∧
    (pyStrip "0123456789").length = 10 ∧
    (search_diseases_in_text cosDist1 negEmbed exStoreD "0123456789" 1
        (-1)).map (fun d => d.similarity) = [-1] ∧
    ¬(0 ≤ (-1 : ℚ)) := by
  refine ⟨by with_unfolding_all decide, by with_unfolding_all decide,
    by with_unfolding_all decide, by with_unfolding_all decide⟩

end EMed
